import Mathlib

/-!
Shallow embedding of the flight-simulator integrator of this repository.

The repository contains two variants of the same arcade flight demo:
  * `src/main.js` (the richer variant, modelled in namespace `Main`), and
  * `src/unnamed/part_000` (the simpler variant, modelled in namespace `Simple`).

Only the per-frame physics/camera function `update(dt)` (and the state it
touches) has algorithmic content; the rendering and DOM wiring are external.
Floating-point numbers are idealised as an arbitrary linear ordered field `K`,
and the trigonometric functions used by THREE's Euler-to-quaternion conversion
are passed in as parameters `sn`/`cs` (together with the constant `pi` used by
`THREE.MathUtils.degToRad`), so that every definition stays executable and
instantiations at the rationals can be evaluated by `decide`.
-/

/-- A 3-component vector, mirroring `THREE.Vector3` (only the fields/methods
the integrator uses are modelled). -/
@[ext] structure Vec3 (K : Type) where
  x : K
  y : K
  z : K
deriving DecidableEq

/-- A quaternion, mirroring `THREE.Quaternion` with components x, y, z, w. -/
@[ext] structure Quat (K : Type) where
  x : K
  y : K
  z : K
  w : K
deriving DecidableEq

/-- The eight boolean control flags, mirroring the `input` record of
`src/main.js` lines 353-362 and the `inputState` record of
`src/unnamed/part_000` (spec: ControlInputs). -/
structure ControlInputs where
  pitchUp : Bool
  pitchDown : Bool
  rollLeft : Bool
  rollRight : Bool
  yawLeft : Bool
  yawRight : Bool
  throttleUp : Bool
  throttleDown : Bool
deriving DecidableEq

/-- The full mutable state read and written by `update(dt)`:
aircraft position/orientation (`aircraft.position`, `aircraft.quaternion`),
the module-level `velocity` and `throttle`, the camera position and its
look-at target (spec: AircraftState + ThrottleState + CameraState), and the
accumulated `globalTime` of `src/main.js` line 398 (used only for shader
uniforms; `src/unnamed/part_000` has no such accumulator, so the `Simple`
update leaves this field untouched). -/
@[ext] structure SimState (K : Type) where
  position : Vec3 K
  quaternion : Quat K
  velocity : Vec3 K
  throttle : K
  camPos : Vec3 K
  camTarget : Vec3 K
  time : K
deriving DecidableEq

variable {K : Type} [LinearOrderedField K]

namespace Vec3

/-- `THREE.Vector3.add`. -/
def add (a b : Vec3 K) : Vec3 K :=
  ⟨a.x + b.x, a.y + b.y, a.z + b.z⟩

/-- `THREE.Vector3.multiplyScalar`. -/
def multiplyScalar (a : Vec3 K) (s : K) : Vec3 K :=
  ⟨a.x * s, a.y * s, a.z * s⟩

/-- `THREE.Vector3.addScaledVector a s`: `this + a * s`. -/
def addScaledVector (a b : Vec3 K) (s : K) : Vec3 K :=
  ⟨a.x + b.x * s, a.y + b.y * s, a.z + b.z * s⟩

/-- `THREE.Vector3.lerp v t`: `this + (v - this) * t`, componentwise. -/
def lerp (a b : Vec3 K) (t : K) : Vec3 K :=
  ⟨a.x + (b.x - a.x) * t, a.y + (b.y - a.y) * t, a.z + (b.z - a.z) * t⟩

/-- `THREE.Vector3.applyQuaternion`: with `t = 2 * cross(q.xyz, v)`, the
result is `v + q.w * t + cross(q.xyz, t)` (THREE's unit-quaternion formula). -/
def applyQuaternion (v : Vec3 K) (q : Quat K) : Vec3 K :=
  let tx := 2 * (q.y * v.z - q.z * v.y)
  let ty := 2 * (q.z * v.x - q.x * v.z)
  let tz := 2 * (q.x * v.y - q.y * v.x)
  ⟨v.x + q.w * tx + (q.y * tz - q.z * ty),
   v.y + q.w * ty + (q.z * tx - q.x * tz),
   v.z + q.w * tz + (q.x * ty - q.y * tx)⟩

end Vec3

namespace Quat

/-- `THREE.Quaternion.multiply q` = `multiplyQuaternions(this, q)` (Hamilton
product, `this` on the left). -/
def multiply (a b : Quat K) : Quat K :=
  ⟨a.x * b.w + a.w * b.x + a.y * b.z - a.z * b.y,
   a.y * b.w + a.w * b.y + a.z * b.x - a.x * b.z,
   a.z * b.w + a.w * b.z + a.x * b.y - a.y * b.x,
   a.w * b.w - a.x * b.x - a.y * b.y - a.z * b.z⟩

/-- `THREE.Quaternion.setFromEuler(new THREE.Euler(ex, ey, ez, "XYZ"))`,
with the trigonometric functions `sn`/`cs` passed as parameters. -/
def setFromEuler (sn cs : K → K) (ex ey ez : K) : Quat K :=
  let c1 := cs (ex / 2)
  let c2 := cs (ey / 2)
  let c3 := cs (ez / 2)
  let s1 := sn (ex / 2)
  let s2 := sn (ey / 2)
  let s3 := sn (ez / 2)
  ⟨s1 * c2 * c3 + c1 * s2 * s3,
   c1 * s2 * c3 - s1 * c2 * s3,
   c1 * c2 * s3 + s1 * s2 * c3,
   c1 * c2 * c3 - s1 * s2 * s3⟩

end Quat

namespace MathUtils

/-- `THREE.MathUtils.clamp(value, lo, hi) = Math.max(lo, Math.min(hi, value))`. -/
def clamp (value lo hi : K) : K :=
  max lo (min hi value)

/-- `THREE.MathUtils.degToRad(degrees) = degrees * (Math.PI / 180)`; the
constant `pi` is a parameter of the model. -/
def degToRad (pi degrees : K) : K :=
  degrees * (pi / 180)

end MathUtils

/-- `const maxSpeed = 250` (both variants). -/
def maxSpeed (K : Type) [LinearOrderedField K] : K := 250

/-- `const minSpeed = 20` (both variants). -/
def minSpeed (K : Type) [LinearOrderedField K] : K := 20

/-- `const pitchRate = THREE.MathUtils.degToRad(30)` (both variants). -/
def pitchRate (pi : K) : K := MathUtils.degToRad pi 30

/-- `const rollRate = THREE.MathUtils.degToRad(45)` (both variants). -/
def rollRate (pi : K) : K := MathUtils.degToRad pi 45

/-- `const yawRate = THREE.MathUtils.degToRad(15)` (both variants). -/
def yawRate (pi : K) : K := MathUtils.degToRad pi 15

/-- `const gravity = new THREE.Vector3(0, -9.81, 0)` (both variants). -/
def gravity (K : Type) [LinearOrderedField K] : Vec3 K := ⟨0, -(981/100), 0⟩

/-- Throttle update of a frame (identical in both variants):
`if (throttleUp) throttle += dt * 0.3; if (throttleDown) throttle -= dt * 0.3;
throttle = clamp(throttle, 0, 1)` (`src/main.js` 408-410,
`src/unnamed/part_000` with `throttleChangeRate = 0.3`). -/
def throttleStep (inp : ControlInputs) (dt t : K) : K :=
  let t1 := if inp.throttleUp then t + dt * (3/10) else t
  let t2 := if inp.throttleDown then t1 - dt * (3/10) else t1
  MathUtils.clamp t2 0 1

/-- `speed = minSpeed + throttle * (maxSpeed - minSpeed)` (both variants). -/
def speedOf (t : K) : K :=
  minSpeed K + t * (maxSpeed K - minSpeed K)

/-- Accumulated pitch delta: `let pitch = 0; if (pitchUp) pitch += pitchRate*dt;
if (pitchDown) pitch -= pitchRate*dt` (both variants). -/
def pitchDelta (pi : K) (inp : ControlInputs) (dt : K) : K :=
  let p0 : K := 0
  let p1 := if inp.pitchUp then p0 + pitchRate pi * dt else p0
  if inp.pitchDown then p1 - pitchRate pi * dt else p1

/-- Accumulated roll delta (both variants). -/
def rollDelta (pi : K) (inp : ControlInputs) (dt : K) : K :=
  let r0 : K := 0
  let r1 := if inp.rollLeft then r0 + rollRate pi * dt else r0
  if inp.rollRight then r1 - rollRate pi * dt else r1

/-- Accumulated yaw delta (both variants). -/
def yawDelta (pi : K) (inp : ControlInputs) (dt : K) : K :=
  let y0 : K := 0
  let y1 := if inp.yawLeft then y0 + yawRate pi * dt else y0
  if inp.yawRight then y1 - yawRate pi * dt else y1

/-- The per-frame incremental rotation quaternion
`new THREE.Quaternion().setFromEuler(new THREE.Euler(pitch, yaw, roll, "XYZ"))`
(both variants; Euler x := pitch, y := yaw, z := roll). -/
def deltaQuat (sn cs : K → K) (pi : K) (inp : ControlInputs) (dt : K) : Quat K :=
  Quat.setFromEuler sn cs (pitchDelta pi inp dt) (yawDelta pi inp dt) (rollDelta pi inp dt)

/-- `const forward = new THREE.Vector3(0, 0, -1).applyQuaternion(q)`
(both variants). -/
def forwardOf (q : Quat K) : Vec3 K :=
  (Vec3.mk 0 0 (-1)).applyQuaternion q

namespace Main

/-- `const lift = new THREE.Vector3(0, speed * 0.4, 0)` (`src/main.js` 431). -/
def lift (speed : K) : Vec3 K := ⟨0, speed * (4/10), 0⟩

/-- Velocity update of `src/main.js` 433-437:
`velocity.addScaledVector(gravity, dt); velocity.addScaledVector(lift, dt);
velocity.lerp(forward.multiplyScalar(speed), 0.12)`. -/
def newVelocity (v fwd : Vec3 K) (speed dt : K) : Vec3 K :=
  (((v.addScaledVector (gravity K) dt).addScaledVector (lift speed) dt).lerp
    (fwd.multiplyScalar speed) (12/100))

/-- The velocity held by `src/main.js` just after line 437 (post-lerp,
pre-ground-clamp), as a function of the incoming state. -/
def postVelocity (sn cs : K → K) (pi : K) (inp : ControlInputs) (dt : K) (s : SimState K) :
    Vec3 K :=
  newVelocity s.velocity (forwardOf (s.quaternion.multiply (deltaQuat sn cs pi inp dt)))
    (speedOf (throttleStep inp dt s.throttle)) dt

/-- `aircraft.position.addScaledVector(velocity, dt)` (`src/main.js` 439) —
the position before the ground clamp of lines 442-445 is applied. -/
def unclampedPosition (sn cs : K → K) (pi : K) (inp : ControlInputs) (dt : K) (s : SimState K) :
    Vec3 K :=
  s.position.addScaledVector (postVelocity sn cs pi inp dt s) dt

/-- The whole frame update of `src/main.js` lines 400-452: throttle and speed,
incremental rotation (right-multiplied), gravity + lift + lerp velocity update,
explicit-Euler position integration, ground clamp at height 5 (zeroing the
vertical velocity), and the chase camera (offset (0, 20, 60), position lerp
factor 0.1, look-at target snapped to the aircraft position). -/
def update (sn cs : K → K) (pi : K) (inp : ControlInputs) (dt : K) (s : SimState K) :
    SimState K :=
  let throttle := throttleStep inp dt s.throttle
  let q := s.quaternion.multiply (deltaQuat sn cs pi inp dt)
  let v := postVelocity sn cs pi inp dt s
  let p1 := unclampedPosition sn cs pi inp dt s
  let p2 : Vec3 K := if p1.y < 5 then ⟨p1.x, 5, p1.z⟩ else p1
  let v2 : Vec3 K := if p1.y < 5 then ⟨v.x, 0, v.z⟩ else v
  let camDesired := p2.add ((Vec3.mk 0 20 60).applyQuaternion q)
  ⟨p2, q, v2, throttle, s.camPos.lerp camDesired (1/10), p2, s.time + dt⟩

/-- `steps.foldl` of `update`: running a sequence of frames, each with its own
input flags and elapsed time. -/
def run (sn cs : K → K) (pi : K) (steps : List (ControlInputs × K)) (s : SimState K) :
    SimState K :=
  steps.foldl (fun st p => update sn cs pi p.1 p.2 st) s

end Main

namespace Simple

/-- `const lift = new THREE.Vector3(0, liftFactor * speed, 0)` with
`liftFactor = 0.5` (`src/unnamed/part_000`). -/
def lift (speed : K) : Vec3 K := ⟨0, (5/10) * speed, 0⟩

/-- `const acceleration = new THREE.Vector3().copy(forward).multiplyScalar(0)
.add(gravity).add(lift)` (`src/unnamed/part_000`). -/
def acceleration (fwd : Vec3 K) (speed : K) : Vec3 K :=
  ((fwd.multiplyScalar 0).add (gravity K)).add (lift speed)

/-- Velocity update of `src/unnamed/part_000`:
`velocity.addScaledVector(acceleration, dt);
velocity.lerp(forward.multiplyScalar(forwardSpeed), 0.1)`. -/
def newVelocity (v fwd : Vec3 K) (speed dt : K) : Vec3 K :=
  ((v.addScaledVector (acceleration fwd speed) dt).lerp (fwd.multiplyScalar speed) (1/10))

/-- The velocity of `src/unnamed/part_000` just after the lerp (pre-clamp). -/
def postVelocity (sn cs : K → K) (pi : K) (inp : ControlInputs) (dt : K) (s : SimState K) :
    Vec3 K :=
  newVelocity s.velocity (forwardOf (s.quaternion.multiply (deltaQuat sn cs pi inp dt)))
    (speedOf (throttleStep inp dt s.throttle)) dt

/-- `aircraft.position.addScaledVector(velocity, dt)` before the floor clamp at
height 2 of `src/unnamed/part_000`. -/
def unclampedPosition (sn cs : K → K) (pi : K) (inp : ControlInputs) (dt : K) (s : SimState K) :
    Vec3 K :=
  s.position.addScaledVector (postVelocity sn cs pi inp dt s) dt

/-- The whole frame update of `src/unnamed/part_000` lines 99-166: same shape
as the richer variant but with lift factor 0.5, velocity lerp factor 0.1,
floor threshold 2 with `velocity.y = Math.max(0, velocity.y)`, camera offset
(0, 15, 40), and no global time accumulator (the `time` field is untouched). -/
def update (sn cs : K → K) (pi : K) (inp : ControlInputs) (dt : K) (s : SimState K) :
    SimState K :=
  let throttle := throttleStep inp dt s.throttle
  let q := s.quaternion.multiply (deltaQuat sn cs pi inp dt)
  let v := postVelocity sn cs pi inp dt s
  let p1 := unclampedPosition sn cs pi inp dt s
  let p2 : Vec3 K := if p1.y < 2 then ⟨p1.x, 2, p1.z⟩ else p1
  let v2 : Vec3 K := if p1.y < 2 then ⟨v.x, max 0 v.y, v.z⟩ else v
  let camDesired := p2.add ((Vec3.mk 0 15 40).applyQuaternion q)
  ⟨p2, q, v2, throttle, s.camPos.lerp camDesired (1/10), p2, s.time⟩

/-- Frame-sequence iteration of the simpler variant's update. -/
def run (sn cs : K → K) (pi : K) (steps : List (ControlInputs × K)) (s : SimState K) :
    SimState K :=
  steps.foldl (fun st p => update sn cs pi p.1 p.2 st) s

end Simple

/-- All eight control flags false (no key held). -/
def inpNone : ControlInputs :=
  ⟨false, false, false, false, false, false, false, false⟩

/-- Only the pitch-up flag held. -/
def inpPitchUpOnly : ControlInputs :=
  ⟨true, false, false, false, false, false, false, false⟩

/-- Only the throttle-up flag held. -/
def inpThrottleUpOnly : ControlInputs :=
  ⟨false, false, false, false, false, false, true, false⟩

/-- A degenerate executable stand-in for the sine function, used only to
instantiate concrete rational evaluations; it satisfies `sn 0 = 0`, the only
property of sine that those evaluations use. -/
def sin0 : ℚ → ℚ := fun _ => 0

/-- A degenerate executable stand-in for the cosine function, used only to
instantiate concrete rational evaluations; it satisfies `cs 0 = 1`, the only
property of cosine that those evaluations use. -/
def cos1 : ℚ → ℚ := fun _ => 1

/-- A concrete rational state: level orientation at height 20, at rest,
throttle one half. -/
def stateA : SimState ℚ :=
  ⟨⟨0, 20, 0⟩, ⟨0, 0, 0, 1⟩, ⟨0, 0, 0⟩, 1/2, ⟨0, 0, 0⟩, ⟨0, 0, 0⟩, 0⟩

/-- A concrete rational state: level orientation at height 20, at rest,
throttle zero (the Scenario B start state). -/
def stateB : SimState ℚ :=
  ⟨⟨0, 20, 0⟩, ⟨0, 0, 0, 1⟩, ⟨0, 0, 0⟩, 0, ⟨0, 0, 0⟩, ⟨0, 0, 0⟩, 0⟩

/-- A variant of `stateA` that differs only in the accumulated global time. -/
def stateAtime : SimState ℚ :=
  ⟨⟨0, 20, 0⟩, ⟨0, 0, 0, 1⟩, ⟨0, 0, 0⟩, 1/2, ⟨0, 0, 0⟩, ⟨0, 0, 0⟩, 7⟩


/-- Definition following the spec's words for the attitude deltas (claim C5):
a signed delta of rate times dt per active flag, positive for the first flag of
the pair and negative for the second, so that opposing flags cancel. -/
def specDelta (rate : K) (up down : Bool) (dt : K) : K :=
  ((if up then (1 : K) else 0) - (if down then (1 : K) else 0)) * (rate * dt)

/-- Definition following the spec's words for an axis-angle rotation about the
X axis: the unit quaternion with vector part sin of half the angle times the
X axis and scalar part cos of half the angle. -/
def rotX (sn cs : K → K) (t : K) : Quat K :=
  ⟨sn (t / 2), 0, 0, cs (t / 2)⟩

/-- Definition following the spec's words for the velocity update (claim C6):
new velocity = lerp(velocity + (gravity + lift) * dt, forward * speed, factor),
with lift = (0, speed * liftFactor, 0). -/
def specVelocity (liftFactor lerpFactor : K) (v fwd : Vec3 K) (speed dt : K) : Vec3 K :=
  (v.add (((gravity K).add ⟨0, speed * liftFactor, 0⟩).multiplyScalar dt)).lerp
    (fwd.multiplyScalar speed) lerpFactor

/-! ### Helper lemmas -/

theorem clamp01_nonneg (t : K) : 0 ≤ MathUtils.clamp t 0 1 :=
  le_max_left 0 _

theorem clamp01_le_one (t : K) : MathUtils.clamp t 0 1 ≤ 1 :=
  max_le zero_le_one (min_le_left _ _)

theorem throttleStep_mem (inp : ControlInputs) (dt t : K) :
    0 ≤ throttleStep inp dt t ∧ throttleStep inp dt t ≤ 1 :=
  ⟨clamp01_nonneg _, clamp01_le_one _⟩

theorem main_run_throttle_mem (sn cs : K → K) (pi : K) :
    ∀ (steps : List (ControlInputs × K)) (s : SimState K),
      0 ≤ s.throttle → s.throttle ≤ 1 →
      0 ≤ (Main.run sn cs pi steps s).throttle ∧ (Main.run sn cs pi steps s).throttle ≤ 1 := by
  intro steps
  induction steps with
  | nil => intro s h0 h1; exact ⟨h0, h1⟩
  | cons p rest ih =>
      intro s h0 h1
      have h := throttleStep_mem p.1 p.2 s.throttle
      exact ih (Main.update sn cs pi p.1 p.2 s) h.1 h.2

theorem simple_run_throttle_mem (sn cs : K → K) (pi : K) :
    ∀ (steps : List (ControlInputs × K)) (s : SimState K),
      0 ≤ s.throttle → s.throttle ≤ 1 →
      0 ≤ (Simple.run sn cs pi steps s).throttle ∧
        (Simple.run sn cs pi steps s).throttle ≤ 1 := by
  intro steps
  induction steps with
  | nil => intro s h0 h1; exact ⟨h0, h1⟩
  | cons p rest ih =>
      intro s h0 h1
      have h := throttleStep_mem p.1 p.2 s.throttle
      exact ih (Simple.update sn cs pi p.1 p.2 s) h.1 h.2

theorem deltaQuat_id (sn cs : K → K) (pi : K) (inp : ControlInputs) (dt : K)
    (hs : sn 0 = 0) (hc : cs 0 = 1)
    (h1 : inp.pitchUp = false) (h2 : inp.pitchDown = false) (h3 : inp.rollLeft = false)
    (h4 : inp.rollRight = false) (h5 : inp.yawLeft = false) (h6 : inp.yawRight = false) :
    deltaQuat sn cs pi inp dt = ⟨0, 0, 0, 1⟩ := by
  apply Quat.ext <;>
    simp [deltaQuat, pitchDelta, rollDelta, yawDelta, Quat.setFromEuler,
      h1, h2, h3, h4, h5, h6, hs, hc]

theorem quat_multiply_one (q : Quat K) : q.multiply ⟨0, 0, 0, 1⟩ = q := by
  apply Quat.ext <;> simp [Quat.multiply]

/-! ### Claims -/

/-- Claim C1: for every sequence of update steps with arbitrary
throttle-up/throttle-down input flags and arbitrary non-negative dt values,
the throttle value after each update call lies in the interval from 0 to 1
(starting from the initial value 0.5), in both variants. -/
theorem claim1 (sn cs : K → K) (pi : K) (steps : List (ControlInputs × K))
    (s t : SimState K) (h : s.throttle = 1/2) (hT : t.throttle = 1/2)
    (hdt : ∀ p ∈ steps, 0 ≤ p.2) (n : ℕ) :
    (0 ≤ (Main.run sn cs pi (steps.take n) s).throttle ∧
      (Main.run sn cs pi (steps.take n) s).throttle ≤ 1) ∧
    (0 ≤ (Simple.run sn cs pi (steps.take n) t).throttle ∧
      (Simple.run sn cs pi (steps.take n) t).throttle ≤ 1) := by
  constructor
  · exact main_run_throttle_mem sn cs pi (steps.take n) s
      (by rw [h]; norm_num) (by rw [h]; norm_num)
  · exact simple_run_throttle_mem sn cs pi (steps.take n) t
      (by rw [hT]; norm_num) (by rw [hT]; norm_num)

theorem claim1_witness :
    stateA.throttle = 1/2 ∧
    (∀ p ∈ [(inpThrottleUpOnly, (1/60 : ℚ))], 0 ≤ p.2) ∧
    ((0 ≤ (Main.run sin0 cos1 0 ([(inpThrottleUpOnly, (1/60 : ℚ))].take 1) stateA).throttle ∧
      (Main.run sin0 cos1 0 ([(inpThrottleUpOnly, (1/60 : ℚ))].take 1) stateA).throttle ≤ 1) ∧
     (0 ≤ (Simple.run sin0 cos1 0 ([(inpThrottleUpOnly, (1/60 : ℚ))].take 1) stateA).throttle ∧
      (Simple.run sin0 cos1 0 ([(inpThrottleUpOnly, (1/60 : ℚ))].take 1) stateA).throttle ≤ 1)) :=
  ⟨rfl, by intro p hp; rw [List.mem_singleton] at hp; subst hp; norm_num,
    claim1 sin0 cos1 0 [(inpThrottleUpOnly, (1/60 : ℚ))] stateA stateA rfl rfl
      (by intro p hp; rw [List.mem_singleton] at hp; subst hp; norm_num) 1⟩

/-- Claim C2: after every update step (any input flags, any non-negative dt),
the aircraft's position.y is at least the floor threshold (5 in the richer
variant, 2 in the simpler), and whenever the unclamped position integration
would put position.y below the threshold, the vertical velocity component
after the step is non-negative. -/
theorem claim2 (sn cs : K → K) (pi : K) (inp : ControlInputs) (dt : K) (s : SimState K)
    (hdt : 0 ≤ dt) :
    (5 ≤ (Main.update sn cs pi inp dt s).position.y ∧
      ((Main.unclampedPosition sn cs pi inp dt s).y < 5 →
        0 ≤ (Main.update sn cs pi inp dt s).velocity.y)) ∧
    (2 ≤ (Simple.update sn cs pi inp dt s).position.y ∧
      ((Simple.unclampedPosition sn cs pi inp dt s).y < 2 →
        0 ≤ (Simple.update sn cs pi inp dt s).velocity.y)) := by
  constructor
  · by_cases h : (Main.unclampedPosition sn cs pi inp dt s).y < 5
    · exact ⟨by simp [Main.update, h], fun _ => by simp [Main.update, h]⟩
    · exact ⟨by simpa [Main.update, h] using le_of_not_lt h, fun hcon => absurd hcon h⟩
  · by_cases h : (Simple.unclampedPosition sn cs pi inp dt s).y < 2
    · exact ⟨by simp [Simple.update, h], fun _ => by simp [Simple.update, h]⟩
    · exact ⟨by simpa [Simple.update, h] using le_of_not_lt h, fun hcon => absurd hcon h⟩

theorem claim2_witness :
    (0 : ℚ) ≤ 1 ∧
    ((5 ≤ (Main.update sin0 cos1 0 inpNone 1 stateA).position.y ∧
      ((Main.unclampedPosition sin0 cos1 0 inpNone 1 stateA).y < 5 →
        0 ≤ (Main.update sin0 cos1 0 inpNone 1 stateA).velocity.y)) ∧
     (2 ≤ (Simple.update sin0 cos1 0 inpNone 1 stateA).position.y ∧
      ((Simple.unclampedPosition sin0 cos1 0 inpNone 1 stateA).y < 2 →
        0 ≤ (Simple.update sin0 cos1 0 inpNone 1 stateA).velocity.y))) :=
  ⟨by norm_num, claim2 sin0 cos1 0 inpNone 1 stateA (by norm_num)⟩

/-- Claim C7: in every update step, the camera's look-at target is set exactly
to the aircraft's current (post-integration) position with no smoothing, while
the camera position is moved by linear interpolation with fixed factor 0.1
toward the point aircraft position plus the fixed local offset rotated by the
aircraft's orientation quaternion, in both variants. -/
theorem claim7 (sn cs : K → K) (pi : K) (inp : ControlInputs) (dt : K) (s t : SimState K) :
    ((Main.update sn cs pi inp dt s).camTarget = (Main.update sn cs pi inp dt s).position ∧
     (Main.update sn cs pi inp dt s).camPos =
       s.camPos.lerp
         ((Main.update sn cs pi inp dt s).position.add
           ((Vec3.mk 0 20 60).applyQuaternion (Main.update sn cs pi inp dt s).quaternion))
         (1/10)) ∧
    ((Simple.update sn cs pi inp dt t).camTarget = (Simple.update sn cs pi inp dt t).position ∧
     (Simple.update sn cs pi inp dt t).camPos =
       t.camPos.lerp
         ((Simple.update sn cs pi inp dt t).position.add
           ((Vec3.mk 0 15 40).applyQuaternion (Simple.update sn cs pi inp dt t).quaternion))
         (1/10)) :=
  ⟨⟨rfl, rfl⟩, ⟨rfl, rfl⟩⟩

/-- Claim C9: the update step is deterministic and reads no hidden inputs
beyond the accumulated global time (which is used only for shader uniforms):
two runs from states that agree on aircraft position, orientation, velocity,
throttle and camera (but may differ in the accumulated time) produce, for the
same input flags and the same dt, identical aircraft, throttle and camera
results, in both variants. -/
theorem claim9 (sn cs : K → K) (pi : K) (inp : ControlInputs) (dt : K) (s t : SimState K)
    (h1 : s.position = t.position) (h2 : s.quaternion = t.quaternion)
    (h3 : s.velocity = t.velocity) (h4 : s.throttle = t.throttle)
    (h5 : s.camPos = t.camPos) (h6 : s.camTarget = t.camTarget) :
    ((Main.update sn cs pi inp dt s).position = (Main.update sn cs pi inp dt t).position ∧
     (Main.update sn cs pi inp dt s).quaternion = (Main.update sn cs pi inp dt t).quaternion ∧
     (Main.update sn cs pi inp dt s).velocity = (Main.update sn cs pi inp dt t).velocity ∧
     (Main.update sn cs pi inp dt s).throttle = (Main.update sn cs pi inp dt t).throttle ∧
     (Main.update sn cs pi inp dt s).camPos = (Main.update sn cs pi inp dt t).camPos ∧
     (Main.update sn cs pi inp dt s).camTarget = (Main.update sn cs pi inp dt t).camTarget) ∧
    ((Simple.update sn cs pi inp dt s).position = (Simple.update sn cs pi inp dt t).position ∧
     (Simple.update sn cs pi inp dt s).quaternion =
       (Simple.update sn cs pi inp dt t).quaternion ∧
     (Simple.update sn cs pi inp dt s).velocity = (Simple.update sn cs pi inp dt t).velocity ∧
     (Simple.update sn cs pi inp dt s).throttle = (Simple.update sn cs pi inp dt t).throttle ∧
     (Simple.update sn cs pi inp dt s).camPos = (Simple.update sn cs pi inp dt t).camPos ∧
     (Simple.update sn cs pi inp dt s).camTarget =
       (Simple.update sn cs pi inp dt t).camTarget) := by
  obtain ⟨p, q, v, th, cp, ct, ti⟩ := s
  obtain ⟨pB, qB, vB, thB, cpB, ctB, tiB⟩ := t
  simp only at h1 h2 h3 h4 h5 h6
  subst h1; subst h2; subst h3; subst h4; subst h5; subst h6
  exact ⟨⟨rfl, rfl, rfl, rfl, rfl, rfl⟩, ⟨rfl, rfl, rfl, rfl, rfl, rfl⟩⟩

theorem claim9_witness :
    (stateA.position = stateAtime.position ∧ stateA.quaternion = stateAtime.quaternion ∧
     stateA.velocity = stateAtime.velocity ∧ stateA.throttle = stateAtime.throttle ∧
     stateA.camPos = stateAtime.camPos ∧ stateA.camTarget = stateAtime.camTarget) ∧
    ((Main.update sin0 cos1 0 inpPitchUpOnly 1 stateA).position =
       (Main.update sin0 cos1 0 inpPitchUpOnly 1 stateAtime).position ∧
     (Main.update sin0 cos1 0 inpPitchUpOnly 1 stateA).quaternion =
       (Main.update sin0 cos1 0 inpPitchUpOnly 1 stateAtime).quaternion ∧
     (Main.update sin0 cos1 0 inpPitchUpOnly 1 stateA).velocity =
       (Main.update sin0 cos1 0 inpPitchUpOnly 1 stateAtime).velocity ∧
     (Main.update sin0 cos1 0 inpPitchUpOnly 1 stateA).throttle =
       (Main.update sin0 cos1 0 inpPitchUpOnly 1 stateAtime).throttle ∧
     (Main.update sin0 cos1 0 inpPitchUpOnly 1 stateA).camPos =
       (Main.update sin0 cos1 0 inpPitchUpOnly 1 stateAtime).camPos ∧
     (Main.update sin0 cos1 0 inpPitchUpOnly 1 stateA).camTarget =
       (Main.update sin0 cos1 0 inpPitchUpOnly 1 stateAtime).camTarget) ∧
    ((Simple.update sin0 cos1 0 inpPitchUpOnly 1 stateA).position =
       (Simple.update sin0 cos1 0 inpPitchUpOnly 1 stateAtime).position ∧
     (Simple.update sin0 cos1 0 inpPitchUpOnly 1 stateA).quaternion =
       (Simple.update sin0 cos1 0 inpPitchUpOnly 1 stateAtime).quaternion ∧
     (Simple.update sin0 cos1 0 inpPitchUpOnly 1 stateA).velocity =
       (Simple.update sin0 cos1 0 inpPitchUpOnly 1 stateAtime).velocity ∧
     (Simple.update sin0 cos1 0 inpPitchUpOnly 1 stateA).throttle =
       (Simple.update sin0 cos1 0 inpPitchUpOnly 1 stateAtime).throttle ∧
     (Simple.update sin0 cos1 0 inpPitchUpOnly 1 stateA).camPos =
       (Simple.update sin0 cos1 0 inpPitchUpOnly 1 stateAtime).camPos ∧
     (Simple.update sin0 cos1 0 inpPitchUpOnly 1 stateA).camTarget =
       (Simple.update sin0 cos1 0 inpPitchUpOnly 1 stateAtime).camTarget) :=
  ⟨⟨rfl, rfl, rfl, rfl, rfl, rfl⟩,
    claim9 sin0 cos1 0 inpPitchUpOnly 1 stateA stateAtime rfl rfl rfl rfl rfl rfl⟩

/-- Claim C10: for every dt and every starting orientation, if all six
directional flags are false, the update step leaves the aircraft's orientation
quaternion exactly unchanged (the incremental Euler rotation is the identity
quaternion and multiplying by it is exact), regardless of the throttle flags,
in both variants. -/
theorem claim10 (sn cs : K → K) (pi : K) (inp : ControlInputs) (dt : K) (s t : SimState K)
    (hs : sn 0 = 0) (hc : cs 0 = 1)
    (h1 : inp.pitchUp = false) (h2 : inp.pitchDown = false) (h3 : inp.rollLeft = false)
    (h4 : inp.rollRight = false) (h5 : inp.yawLeft = false) (h6 : inp.yawRight = false) :
    (Main.update sn cs pi inp dt s).quaternion = s.quaternion ∧
    (Simple.update sn cs pi inp dt t).quaternion = t.quaternion := by
  have hd := deltaQuat_id sn cs pi inp dt hs hc h1 h2 h3 h4 h5 h6
  constructor
  · show s.quaternion.multiply (deltaQuat sn cs pi inp dt) = s.quaternion
    rw [hd, quat_multiply_one]
  · show t.quaternion.multiply (deltaQuat sn cs pi inp dt) = t.quaternion
    rw [hd, quat_multiply_one]

theorem claim10_witness :
    (sin0 0 = 0 ∧ cos1 0 = 1 ∧ inpThrottleUpOnly.pitchUp = false ∧
     inpThrottleUpOnly.pitchDown = false ∧ inpThrottleUpOnly.rollLeft = false ∧
     inpThrottleUpOnly.rollRight = false ∧ inpThrottleUpOnly.yawLeft = false ∧
     inpThrottleUpOnly.yawRight = false) ∧
    ((Main.update sin0 cos1 0 inpThrottleUpOnly 1 stateA).quaternion = stateA.quaternion ∧
     (Simple.update sin0 cos1 0 inpThrottleUpOnly 1 stateA).quaternion = stateA.quaternion) :=
  ⟨⟨rfl, rfl, rfl, rfl, rfl, rfl, rfl, rfl⟩,
    claim10 sin0 cos1 0 inpThrottleUpOnly 1 stateA stateA rfl rfl rfl rfl rfl rfl rfl rfl⟩


theorem pitchDelta_spec (pi : K) (inp : ControlInputs) (dt : K) :
    pitchDelta pi inp dt = specDelta (pitchRate pi) inp.pitchUp inp.pitchDown dt := by
  rcases inp with ⟨pu, pd, rl, rr, yl, yr, tu, td⟩
  cases pu <;> cases pd <;> simp [pitchDelta, specDelta]

theorem rollDelta_spec (pi : K) (inp : ControlInputs) (dt : K) :
    rollDelta pi inp dt = specDelta (rollRate pi) inp.rollLeft inp.rollRight dt := by
  rcases inp with ⟨pu, pd, rl, rr, yl, yr, tu, td⟩
  cases rl <;> cases rr <;> simp [rollDelta, specDelta]

theorem yawDelta_spec (pi : K) (inp : ControlInputs) (dt : K) :
    yawDelta pi inp dt = specDelta (yawRate pi) inp.yawLeft inp.yawRight dt := by
  rcases inp with ⟨pu, pd, rl, rr, yl, yr, tu, td⟩
  cases yl <;> cases yr <;> simp [yawDelta, specDelta]

theorem setFromEuler_xOnly (sn cs : K → K) (hs : sn 0 = 0) (hc : cs 0 = 1) (t : K) :
    Quat.setFromEuler sn cs t 0 0 = rotX sn cs t := by
  apply Quat.ext <;> simp [Quat.setFromEuler, rotX, hs, hc]

theorem deltaQuat_pitchUp (sn cs : K → K) (pi : K) (hs : sn 0 = 0) (hc : cs 0 = 1) :
    deltaQuat sn cs pi inpPitchUpOnly 1 = rotX sn cs (MathUtils.degToRad pi 30) := by
  have hp : pitchDelta pi inpPitchUpOnly 1 = MathUtils.degToRad pi 30 := by
    simp [pitchDelta, inpPitchUpOnly, pitchRate]
  have hy : yawDelta pi inpPitchUpOnly 1 = 0 := by
    simp [yawDelta, inpPitchUpOnly]
  have hr : rollDelta pi inpPitchUpOnly 1 = 0 := by
    simp [rollDelta, inpPitchUpOnly]
  rw [deltaQuat, hp, hy, hr, setFromEuler_xOnly sn cs hs hc]

/-- Claim C5: in each update step the attitude update computes signed
pitch/roll/yaw deltas as rate times dt per active flag (with opposing flags
cancelling), forms a quaternion from these deltas as Euler angles with pitch
on X, yaw on Y, roll on Z, and right-multiplies it onto the current
orientation; in particular pitch-up held alone for a single step with dt one
second rotates the orientation by exactly the 30-degree pitch rate about the
local X axis (right multiplication by the axis-angle X-rotation quaternion),
in both variants. -/
theorem claim5 (sn cs : K → K) (pi : K) (inp : ControlInputs) (dt : K) (s t : SimState K)
    (hs : sn 0 = 0) (hc : cs 0 = 1) :
    (pitchDelta pi inp dt = specDelta (pitchRate pi) inp.pitchUp inp.pitchDown dt ∧
     rollDelta pi inp dt = specDelta (rollRate pi) inp.rollLeft inp.rollRight dt ∧
     yawDelta pi inp dt = specDelta (yawRate pi) inp.yawLeft inp.yawRight dt) ∧
    ((Main.update sn cs pi inp dt s).quaternion =
       s.quaternion.multiply (deltaQuat sn cs pi inp dt) ∧
     (Simple.update sn cs pi inp dt t).quaternion =
       t.quaternion.multiply (deltaQuat sn cs pi inp dt)) ∧
    ((Main.update sn cs pi inpPitchUpOnly 1 s).quaternion =
       s.quaternion.multiply (rotX sn cs (MathUtils.degToRad pi 30)) ∧
     (Simple.update sn cs pi inpPitchUpOnly 1 t).quaternion =
       t.quaternion.multiply (rotX sn cs (MathUtils.degToRad pi 30))) := by
  refine ⟨⟨pitchDelta_spec pi inp dt, rollDelta_spec pi inp dt, yawDelta_spec pi inp dt⟩,
    ⟨rfl, rfl⟩, ?_, ?_⟩
  · show s.quaternion.multiply (deltaQuat sn cs pi inpPitchUpOnly 1) = _
    rw [deltaQuat_pitchUp sn cs pi hs hc]
  · show t.quaternion.multiply (deltaQuat sn cs pi inpPitchUpOnly 1) = _
    rw [deltaQuat_pitchUp sn cs pi hs hc]

theorem claim5_witness :
    (sin0 0 = 0 ∧ cos1 0 = 1) ∧
    ((pitchDelta (0 : ℚ) inpNone 1 =
        specDelta (pitchRate (0 : ℚ)) inpNone.pitchUp inpNone.pitchDown 1 ∧
      rollDelta (0 : ℚ) inpNone 1 =
        specDelta (rollRate (0 : ℚ)) inpNone.rollLeft inpNone.rollRight 1 ∧
      yawDelta (0 : ℚ) inpNone 1 =
        specDelta (yawRate (0 : ℚ)) inpNone.yawLeft inpNone.yawRight 1) ∧
     ((Main.update sin0 cos1 0 inpNone 1 stateA).quaternion =
        stateA.quaternion.multiply (deltaQuat sin0 cos1 0 inpNone 1) ∧
      (Simple.update sin0 cos1 0 inpNone 1 stateA).quaternion =
        stateA.quaternion.multiply (deltaQuat sin0 cos1 0 inpNone 1)) ∧
     ((Main.update sin0 cos1 0 inpPitchUpOnly 1 stateA).quaternion =
        stateA.quaternion.multiply (rotX sin0 cos1 (MathUtils.degToRad 0 30)) ∧
      (Simple.update sin0 cos1 0 inpPitchUpOnly 1 stateA).quaternion =
        stateA.quaternion.multiply (rotX sin0 cos1 (MathUtils.degToRad 0 30)))) :=
  ⟨⟨rfl, rfl⟩, claim5 sin0 cos1 0 inpNone 1 stateA stateA rfl rfl⟩

theorem throttle_iterate_aux (g : SimState K → SimState K)
    (hg : ∀ st : SimState K,
      (g st).throttle = throttleStep inpThrottleUpOnly (1/60) st.throttle) :
    ∀ (n k : ℕ), n + k ≤ 60 → ∀ s : SimState K, s.throttle = 1/2 + (k : K) / 200 →
      (g^[n] s).throttle = 1/2 + ((k : K) + (n : K)) / 200 := by
  intro n
  induction n with
  | zero =>
      intro k hk s hsk
      simpa using hsk
  | succ n ih =>
      intro k hk s hsk
      rw [Function.iterate_succ_apply]
      have hk59 : (k : K) ≤ 59 := by exact_mod_cast (by omega : k ≤ 59)
      have hknn : (0 : K) ≤ (k : K) := Nat.cast_nonneg k
      have hstep : (g s).throttle = 1/2 + ((k : K) + 1) / 200 := by
        rw [hg s, hsk]
        have hred : throttleStep inpThrottleUpOnly (1/60) ((1 : K)/2 + (k : K)/200) =
            MathUtils.clamp ((1 : K)/2 + (k : K)/200 + (1/60) * (3/10)) 0 1 := rfl
        rw [hred]
        unfold MathUtils.clamp
        rw [min_eq_right (by linarith), max_eq_right (by linarith)]
        ring
      have h := ih (k + 1) (by omega) (g s) (by rw [hstep]; push_cast; ring)
      rw [h]
      push_cast
      ring

/-- Claim C8: starting with throttle one half, holding only the throttle-up
flag and iterating the update step with dt = 1/60 for 60 steps yields a final
throttle of exactly min (0.5 + 0.3) 1 = 0.8 (the idealised-arithmetic value of
the floating-point scenario), in both variants. -/
theorem claim8 (sn cs : K → K) (pi : K) (s t : SimState K)
    (h : s.throttle = 1/2) (hT : t.throttle = 1/2) :
    ((Main.update sn cs pi inpThrottleUpOnly (1/60))^[60] s).throttle =
      min ((1 : K)/2 + 3/10) 1 ∧
    ((Simple.update sn cs pi inpThrottleUpOnly (1/60))^[60] t).throttle =
      min ((1 : K)/2 + 3/10) 1 := by
  constructor
  · have hx := throttle_iterate_aux (Main.update sn cs pi inpThrottleUpOnly (1/60))
      (fun _ => rfl) 60 0 (by omega) s (by rw [h]; norm_num)
    rw [hx]; norm_num
  · have hx := throttle_iterate_aux (Simple.update sn cs pi inpThrottleUpOnly (1/60))
      (fun _ => rfl) 60 0 (by omega) t (by rw [hT]; norm_num)
    rw [hx]; norm_num

theorem claim8_witness :
    stateA.throttle = 1/2 ∧
    (((Main.update sin0 cos1 0 inpThrottleUpOnly (1/60))^[60] stateA).throttle =
       min ((1 : ℚ)/2 + 3/10) 1 ∧
     ((Simple.update sin0 cos1 0 inpThrottleUpOnly (1/60))^[60] stateA).throttle =
       min ((1 : ℚ)/2 + 3/10) 1) :=
  ⟨rfl, claim8 sin0 cos1 0 stateA stateA rfl rfl⟩

theorem lerp_eq_self_iff (a b : Vec3 K) (c : K) (hc : c ≠ 0) :
    a.lerp b c = a ↔ b = a := by
  constructor
  · intro h
    have hx := congrArg Vec3.x h
    have hy := congrArg Vec3.y h
    have hz := congrArg Vec3.z h
    simp only [Vec3.lerp] at hx hy hz
    have hx2 : b.x = a.x := by
      have h0 : (b.x - a.x) * c = 0 := by linarith
      rcases mul_eq_zero.mp h0 with h1 | h1
      · linarith
      · exact absurd h1 hc
    have hy2 : b.y = a.y := by
      have h0 : (b.y - a.y) * c = 0 := by linarith
      rcases mul_eq_zero.mp h0 with h1 | h1
      · linarith
      · exact absurd h1 hc
    have hz2 : b.z = a.z := by
      have h0 : (b.z - a.z) * c = 0 := by linarith
      rcases mul_eq_zero.mp h0 with h1 | h1
      · linarith
      · exact absurd h1 hc
    exact Vec3.ext hx2 hy2 hz2
  · intro h
    rw [h]
    apply Vec3.ext <;> simp [Vec3.lerp]

/-- When the unclamped integrated height is not below 5, the richer variant's
update takes the no-clamp branch everywhere. -/
theorem main_update_of_not_clamped (sn cs : K → K) (pi : K) (inp : ControlInputs) (dt : K)
    (s : SimState K) (h : ¬ ((Main.unclampedPosition sn cs pi inp dt s).y < 5)) :
    Main.update sn cs pi inp dt s =
      ⟨Main.unclampedPosition sn cs pi inp dt s,
       s.quaternion.multiply (deltaQuat sn cs pi inp dt),
       Main.postVelocity sn cs pi inp dt s,
       throttleStep inp dt s.throttle,
       s.camPos.lerp
         ((Main.unclampedPosition sn cs pi inp dt s).add
           ((Vec3.mk 0 20 60).applyQuaternion (s.quaternion.multiply (deltaQuat sn cs pi inp dt))))
         (1/10),
       Main.unclampedPosition sn cs pi inp dt s,
       s.time + dt⟩ := by
  simp only [Main.update]
  rw [if_neg h, if_neg h]

/-- When the unclamped integrated height is not below 2, the simpler variant's
update takes the no-clamp branch everywhere. -/
theorem simple_update_of_not_clamped (sn cs : K → K) (pi : K) (inp : ControlInputs) (dt : K)
    (s : SimState K) (h : ¬ ((Simple.unclampedPosition sn cs pi inp dt s).y < 2)) :
    Simple.update sn cs pi inp dt s =
      ⟨Simple.unclampedPosition sn cs pi inp dt s,
       s.quaternion.multiply (deltaQuat sn cs pi inp dt),
       Simple.postVelocity sn cs pi inp dt s,
       throttleStep inp dt s.throttle,
       s.camPos.lerp
         ((Simple.unclampedPosition sn cs pi inp dt s).add
           ((Vec3.mk 0 15 40).applyQuaternion (s.quaternion.multiply (deltaQuat sn cs pi inp dt))))
         (1/10),
       Simple.unclampedPosition sn cs pi inp dt s,
       s.time⟩ := by
  simp only [Simple.update]
  rw [if_neg h, if_neg h]

theorem quat_step_id (sn cs : K → K) (pi : K) (dt : K) (s : SimState K)
    (hs : sn 0 = 0) (hc : cs 0 = 1) (hq : s.quaternion = ⟨0, 0, 0, 1⟩) :
    s.quaternion.multiply (deltaQuat sn cs pi inpNone dt) = ⟨0, 0, 0, 1⟩ := by
  rw [deltaQuat_id sn cs pi inpNone dt hs hc rfl rfl rfl rfl rfl rfl, quat_multiply_one, hq]

theorem throttleStep_of_mem (inp9 : ControlInputs) (dt t : K)
    (hUp : inp9.throttleUp = false) (hDn : inp9.throttleDown = false)
    (h0 : 0 ≤ t) (h1 : t ≤ 1) : throttleStep inp9 dt t = t := by
  unfold throttleStep
  rw [hUp, hDn]
  simp only [Bool.false_eq_true, if_false]
  unfold MathUtils.clamp
  rw [min_eq_right h1, max_eq_right h0]

theorem main_postVelocity_dt_zero (sn cs : K → K) (pi : K) (s : SimState K)
    (hthr : throttleStep inpNone (0 : K) s.throttle = s.throttle) :
    Main.postVelocity sn cs pi inpNone 0 s =
      s.velocity.lerp
        ((forwardOf (s.quaternion.multiply (deltaQuat sn cs pi inpNone 0))).multiplyScalar
          (speedOf s.throttle)) (12/100) := by
  unfold Main.postVelocity Main.newVelocity
  rw [hthr]
  congr 1
  apply Vec3.ext <;> simp [Vec3.addScaledVector]

theorem simple_postVelocity_dt_zero (sn cs : K → K) (pi : K) (s : SimState K)
    (hthr : throttleStep inpNone (0 : K) s.throttle = s.throttle) :
    Simple.postVelocity sn cs pi inpNone 0 s =
      s.velocity.lerp
        ((forwardOf (s.quaternion.multiply (deltaQuat sn cs pi inpNone 0))).multiplyScalar
          (speedOf s.throttle)) (1/10) := by
  unfold Simple.postVelocity Simple.newVelocity
  rw [hthr]
  congr 1
  apply Vec3.ext <;> simp [Vec3.addScaledVector]

theorem unclampedPosition_dt_zero_main (sn cs : K → K) (pi : K) (s : SimState K) :
    Main.unclampedPosition sn cs pi inpNone 0 s = s.position := by
  unfold Main.unclampedPosition
  apply Vec3.ext <;> simp [Vec3.addScaledVector]

theorem unclampedPosition_dt_zero_simple (sn cs : K → K) (pi : K) (s : SimState K) :
    Simple.unclampedPosition sn cs pi inpNone 0 s = s.position := by
  unfold Simple.unclampedPosition
  apply Vec3.ext <;> simp [Vec3.addScaledVector]

/-- Claim C3 (amended): with all eight flags false and dt = 0, a single update
step leaves the aircraft position (when it is at or above the floor threshold)
and the orientation quaternion unchanged and snaps the camera target to the
aircraft position, but the velocity is still blended toward forward times
speed by the per-frame lerp factor and the camera position is still blended
toward the desired offset point, so velocity and camera position are unchanged
precisely when they already sit at those fixed points (throttle assumed in its
invariant range so that the clamp is the identity), in both variants. -/
theorem claim3 (sn cs : K → K) (pi : K) (sM sS : SimState K)
    (hs : sn 0 = 0) (hc : cs 0 = 1)
    (hyM : 5 ≤ sM.position.y) (hyS : 2 ≤ sS.position.y)
    (htM0 : 0 ≤ sM.throttle) (htM1 : sM.throttle ≤ 1)
    (htS0 : 0 ≤ sS.throttle) (htS1 : sS.throttle ≤ 1) :
    ((Main.update sn cs pi inpNone 0 sM).position = sM.position ∧
     (Main.update sn cs pi inpNone 0 sM).quaternion = sM.quaternion ∧
     (Main.update sn cs pi inpNone 0 sM).camTarget = sM.position ∧
     ((Main.update sn cs pi inpNone 0 sM).velocity = sM.velocity ↔
       (forwardOf sM.quaternion).multiplyScalar (speedOf sM.throttle) = sM.velocity) ∧
     ((Main.update sn cs pi inpNone 0 sM).camPos = sM.camPos ↔
       sM.position.add ((Vec3.mk 0 20 60).applyQuaternion sM.quaternion) = sM.camPos)) ∧
    ((Simple.update sn cs pi inpNone 0 sS).position = sS.position ∧
     (Simple.update sn cs pi inpNone 0 sS).quaternion = sS.quaternion ∧
     (Simple.update sn cs pi inpNone 0 sS).camTarget = sS.position ∧
     ((Simple.update sn cs pi inpNone 0 sS).velocity = sS.velocity ↔
       (forwardOf sS.quaternion).multiplyScalar (speedOf sS.throttle) = sS.velocity) ∧
     ((Simple.update sn cs pi inpNone 0 sS).camPos = sS.camPos ↔
       sS.position.add ((Vec3.mk 0 15 40).applyQuaternion sS.quaternion) = sS.camPos)) := by
  have hdq := deltaQuat_id sn cs pi inpNone (0 : K) hs hc rfl rfl rfl rfl rfl rfl
  have hqM : sM.quaternion.multiply (deltaQuat sn cs pi inpNone 0) = sM.quaternion := by
    rw [hdq, quat_multiply_one]
  have hqS : sS.quaternion.multiply (deltaQuat sn cs pi inpNone 0) = sS.quaternion := by
    rw [hdq, quat_multiply_one]
  have hthrM : throttleStep inpNone (0 : K) sM.throttle = sM.throttle :=
    throttleStep_of_mem inpNone 0 sM.throttle rfl rfl htM0 htM1
  have hthrS : throttleStep inpNone (0 : K) sS.throttle = sS.throttle :=
    throttleStep_of_mem inpNone 0 sS.throttle rfl rfl htS0 htS1
  have hp1M := unclampedPosition_dt_zero_main sn cs pi sM
  have hp1S := unclampedPosition_dt_zero_simple sn cs pi sS
  have hnoM : ¬ ((Main.unclampedPosition sn cs pi inpNone 0 sM).y < 5) := by
    rw [hp1M]; exact not_lt.mpr hyM
  have hnoS : ¬ ((Simple.unclampedPosition sn cs pi inpNone 0 sS).y < 2) := by
    rw [hp1S]; exact not_lt.mpr hyS
  have hvM := main_postVelocity_dt_zero sn cs pi sM hthrM
  have hvS := simple_postVelocity_dt_zero sn cs pi sS hthrS
  rw [main_update_of_not_clamped sn cs pi inpNone 0 sM hnoM,
      simple_update_of_not_clamped sn cs pi inpNone 0 sS hnoS]
  refine ⟨⟨hp1M, hqM, hp1M, ?_, ?_⟩, ⟨hp1S, hqS, hp1S, ?_, ?_⟩⟩
  · rw [show (⟨Main.unclampedPosition sn cs pi inpNone 0 sM,
        sM.quaternion.multiply (deltaQuat sn cs pi inpNone 0),
        Main.postVelocity sn cs pi inpNone 0 sM,
        throttleStep inpNone 0 sM.throttle,
        sM.camPos.lerp
          ((Main.unclampedPosition sn cs pi inpNone 0 sM).add
            ((Vec3.mk 0 20 60).applyQuaternion
              (sM.quaternion.multiply (deltaQuat sn cs pi inpNone 0)))) (1/10),
        Main.unclampedPosition sn cs pi inpNone 0 sM,
        sM.time + 0⟩ : SimState K).velocity = Main.postVelocity sn cs pi inpNone 0 sM from rfl,
      hvM, hqM]
    exact lerp_eq_self_iff sM.velocity _ (12/100) (by norm_num)
  · rw [show (⟨Main.unclampedPosition sn cs pi inpNone 0 sM,
        sM.quaternion.multiply (deltaQuat sn cs pi inpNone 0),
        Main.postVelocity sn cs pi inpNone 0 sM,
        throttleStep inpNone 0 sM.throttle,
        sM.camPos.lerp
          ((Main.unclampedPosition sn cs pi inpNone 0 sM).add
            ((Vec3.mk 0 20 60).applyQuaternion
              (sM.quaternion.multiply (deltaQuat sn cs pi inpNone 0)))) (1/10),
        Main.unclampedPosition sn cs pi inpNone 0 sM,
        sM.time + 0⟩ : SimState K).camPos =
        sM.camPos.lerp
          ((Main.unclampedPosition sn cs pi inpNone 0 sM).add
            ((Vec3.mk 0 20 60).applyQuaternion
              (sM.quaternion.multiply (deltaQuat sn cs pi inpNone 0)))) (1/10) from rfl,
      hp1M, hqM]
    exact lerp_eq_self_iff sM.camPos _ (1/10) (by norm_num)
  · rw [show (⟨Simple.unclampedPosition sn cs pi inpNone 0 sS,
        sS.quaternion.multiply (deltaQuat sn cs pi inpNone 0),
        Simple.postVelocity sn cs pi inpNone 0 sS,
        throttleStep inpNone 0 sS.throttle,
        sS.camPos.lerp
          ((Simple.unclampedPosition sn cs pi inpNone 0 sS).add
            ((Vec3.mk 0 15 40).applyQuaternion
              (sS.quaternion.multiply (deltaQuat sn cs pi inpNone 0)))) (1/10),
        Simple.unclampedPosition sn cs pi inpNone 0 sS,
        sS.time⟩ : SimState K).velocity = Simple.postVelocity sn cs pi inpNone 0 sS from rfl,
      hvS, hqS]
    exact lerp_eq_self_iff sS.velocity _ (1/10) (by norm_num)
  · rw [show (⟨Simple.unclampedPosition sn cs pi inpNone 0 sS,
        sS.quaternion.multiply (deltaQuat sn cs pi inpNone 0),
        Simple.postVelocity sn cs pi inpNone 0 sS,
        throttleStep inpNone 0 sS.throttle,
        sS.camPos.lerp
          ((Simple.unclampedPosition sn cs pi inpNone 0 sS).add
            ((Vec3.mk 0 15 40).applyQuaternion
              (sS.quaternion.multiply (deltaQuat sn cs pi inpNone 0)))) (1/10),
        Simple.unclampedPosition sn cs pi inpNone 0 sS,
        sS.time⟩ : SimState K).camPos =
        sS.camPos.lerp
          ((Simple.unclampedPosition sn cs pi inpNone 0 sS).add
            ((Vec3.mk 0 15 40).applyQuaternion
              (sS.quaternion.multiply (deltaQuat sn cs pi inpNone 0)))) (1/10) from rfl,
      hp1S, hqS]
    exact lerp_eq_self_iff sS.camPos _ (1/10) (by norm_num)

/-- Claim C3 as stated is false: at a concrete state (level orientation,
height 20, zero velocity, throttle one half) with all flags false and dt = 0,
the richer variant's update changes the velocity (the per-frame lerp toward
forward times speed applies even at dt = 0). -/
theorem claim3_cex :
    (Main.update sin0 cos1 0 inpNone 0 stateA).velocity ≠ stateA.velocity := by
  intro h
  have hz := congrArg Vec3.z h
  rw [show (Main.update sin0 cos1 0 inpNone 0 stateA).velocity.z = -81/5 by
      norm_num [Main.update, Main.postVelocity, Main.unclampedPosition, Main.newVelocity,
        Main.lift, throttleStep, MathUtils.clamp, speedOf, minSpeed, maxSpeed, gravity,
        deltaQuat, pitchDelta, rollDelta, yawDelta, pitchRate, rollRate, yawRate,
        MathUtils.degToRad, Quat.setFromEuler, Quat.multiply, forwardOf, Vec3.applyQuaternion,
        Vec3.addScaledVector, Vec3.lerp, Vec3.multiplyScalar, Vec3.add, stateA, inpNone,
        sin0, cos1]] at hz
  norm_num [stateA] at hz

theorem claim3_witness :
    (sin0 0 = 0 ∧ cos1 0 = 1 ∧ (5 : ℚ) ≤ stateA.position.y ∧ (2 : ℚ) ≤ stateA.position.y ∧
     (0 : ℚ) ≤ stateA.throttle ∧ stateA.throttle ≤ 1) ∧
    (((Main.update sin0 cos1 0 inpNone 0 stateA).position = stateA.position ∧
      (Main.update sin0 cos1 0 inpNone 0 stateA).quaternion = stateA.quaternion ∧
      (Main.update sin0 cos1 0 inpNone 0 stateA).camTarget = stateA.position ∧
      ((Main.update sin0 cos1 0 inpNone 0 stateA).velocity = stateA.velocity ↔
        (forwardOf stateA.quaternion).multiplyScalar (speedOf stateA.throttle) =
          stateA.velocity) ∧
      ((Main.update sin0 cos1 0 inpNone 0 stateA).camPos = stateA.camPos ↔
        stateA.position.add ((Vec3.mk 0 20 60).applyQuaternion stateA.quaternion) =
          stateA.camPos)) ∧
     ((Simple.update sin0 cos1 0 inpNone 0 stateA).position = stateA.position ∧
      (Simple.update sin0 cos1 0 inpNone 0 stateA).quaternion = stateA.quaternion ∧
      (Simple.update sin0 cos1 0 inpNone 0 stateA).camTarget = stateA.position ∧
      ((Simple.update sin0 cos1 0 inpNone 0 stateA).velocity = stateA.velocity ↔
        (forwardOf stateA.quaternion).multiplyScalar (speedOf stateA.throttle) =
          stateA.velocity) ∧
      ((Simple.update sin0 cos1 0 inpNone 0 stateA).camPos = stateA.camPos ↔
        stateA.position.add ((Vec3.mk 0 15 40).applyQuaternion stateA.quaternion) =
          stateA.camPos))) :=
  ⟨⟨rfl, rfl, by norm_num [stateA], by norm_num [stateA], by norm_num [stateA],
      by norm_num [stateA]⟩,
    claim3 sin0 cos1 0 stateA stateA rfl rfl (by norm_num [stateA]) (by norm_num [stateA])
      (by norm_num [stateA]) (by norm_num [stateA]) (by norm_num [stateA])
      (by norm_num [stateA])⟩

/-- Claim C6 (amended): in each update step the velocity update adds gravity
and lift times dt and then lerps toward forward times speed with the fixed
per-frame factor, i.e. new velocity = lerp(velocity + (gravity + lift)·dt,
forward·speed, factor), with speed = 20 + throttle·(250 − 20); the lift factor
is 0.4 and the lerp factor 0.12 in the richer variant, while the simpler
variant uses lift factor 0.5 (not 0.4 as claimed) and lerp factor 0.1. -/
theorem claim6 (sn cs : K → K) (pi : K) (inp : ControlInputs) (dt : K) (s t : SimState K) :
    (∀ u : K, speedOf u = 20 + u * (250 - 20)) ∧
    Main.postVelocity sn cs pi inp dt s =
      specVelocity (4/10) (12/100) s.velocity
        (forwardOf (s.quaternion.multiply (deltaQuat sn cs pi inp dt)))
        (speedOf (throttleStep inp dt s.throttle)) dt ∧
    Simple.postVelocity sn cs pi inp dt t =
      specVelocity (5/10) (1/10) t.velocity
        (forwardOf (t.quaternion.multiply (deltaQuat sn cs pi inp dt)))
        (speedOf (throttleStep inp dt t.throttle)) dt := by
  refine ⟨fun u => rfl, ?_, ?_⟩
  · unfold Main.postVelocity Main.newVelocity specVelocity Main.lift
    congr 1
    apply Vec3.ext <;>
      simp only [Vec3.addScaledVector, Vec3.add, Vec3.multiplyScalar, gravity] <;> ring
  · unfold Simple.postVelocity Simple.newVelocity specVelocity Simple.acceleration Simple.lift
    congr 1
    apply Vec3.ext <;>
      simp only [Vec3.addScaledVector, Vec3.add, Vec3.multiplyScalar, gravity] <;> ring

/-- Claim C6 as stated is false for the simpler variant: at a concrete input
its velocity update does not match the claimed formula with lift factor 0.4
(the simpler variant multiplies speed by 0.5). -/
theorem claim6_cex :
    Simple.postVelocity sin0 cos1 0 inpNone 1 stateA ≠
      specVelocity (4/10) (1/10) stateA.velocity
        (forwardOf (stateA.quaternion.multiply (deltaQuat sin0 cos1 0 inpNone 1)))
        (speedOf (throttleStep inpNone 1 stateA.throttle)) 1 := by
  intro h
  have hy := congrArg Vec3.y h
  rw [show (Simple.postVelocity sin0 cos1 0 inpNone 1 stateA).y = 51921/1000 by
      norm_num [Simple.postVelocity, Simple.newVelocity, Simple.acceleration, Simple.lift,
        throttleStep, MathUtils.clamp, speedOf, minSpeed, maxSpeed, gravity, deltaQuat,
        pitchDelta, rollDelta, yawDelta, pitchRate, rollRate, yawRate, MathUtils.degToRad,
        Quat.setFromEuler, Quat.multiply, forwardOf, Vec3.applyQuaternion,
        Vec3.addScaledVector, Vec3.lerp, Vec3.multiplyScalar, Vec3.add, stateA, inpNone,
        sin0, cos1]] at hy
  rw [show (specVelocity (4/10 : ℚ) (1/10) stateA.velocity
        (forwardOf (stateA.quaternion.multiply (deltaQuat sin0 cos1 0 inpNone 1)))
        (speedOf (throttleStep inpNone 1 stateA.throttle)) 1).y = 39771/1000 by
      norm_num [specVelocity, throttleStep, MathUtils.clamp, speedOf, minSpeed, maxSpeed,
        gravity, deltaQuat, pitchDelta, rollDelta, yawDelta, pitchRate, rollRate, yawRate,
        MathUtils.degToRad, Quat.setFromEuler, Quat.multiply, forwardOf,
        Vec3.applyQuaternion, Vec3.addScaledVector, Vec3.lerp, Vec3.multiplyScalar,
        Vec3.add, stateA, inpNone, sin0, cos1]] at hy
  norm_num at hy

theorem throttleStep_zero (dt : K) : throttleStep inpNone dt 0 = 0 := by
  have hred : throttleStep inpNone dt (0 : K) = MathUtils.clamp 0 0 1 := rfl
  rw [hred]
  unfold MathUtils.clamp
  rw [min_eq_right (by norm_num), max_eq_right (le_refl 0)]

theorem forward_of_id : forwardOf (⟨0, 0, 0, 1⟩ : Quat K) = Vec3.mk 0 0 (-1) := by
  apply Vec3.ext <;> simp [forwardOf, Vec3.applyQuaternion]

theorem scenB_main_step (sn cs : K → K) (pi : K) (hs : sn 0 = 0) (hc : cs 0 = 1)
    (s : SimState K) (hq : s.quaternion = ⟨0, 0, 0, 1⟩) (ht : s.throttle = 0)
    (h5 : ¬ (s.position.y + ((22/25) * s.velocity.y - 1991/75000) * (1/60) < 5)) :
    (Main.update sn cs pi inpNone (1/60) s).quaternion = ⟨0, 0, 0, 1⟩ ∧
    (Main.update sn cs pi inpNone (1/60) s).throttle = 0 ∧
    (Main.update sn cs pi inpNone (1/60) s).velocity.y =
      (22/25) * s.velocity.y - 1991/75000 ∧
    (Main.update sn cs pi inpNone (1/60) s).position.y =
      s.position.y + ((22/25) * s.velocity.y - 1991/75000) * (1/60) := by
  have hq2 := quat_step_id sn cs pi ((1 : K)/60) s hs hc hq
  have hthr : throttleStep inpNone ((1 : K)/60) s.throttle = 0 := by
    rw [ht]; exact throttleStep_zero _
  have hspeed : speedOf (throttleStep inpNone ((1 : K)/60) s.throttle) = 20 := by
    rw [hthr]; unfold speedOf minSpeed maxSpeed; ring
  have hvel : Main.postVelocity sn cs pi inpNone (1/60) s =
      ⟨(22/25) * s.velocity.x, (22/25) * s.velocity.y - 1991/75000,
       (22/25) * s.velocity.z - 12/5⟩ := by
    unfold Main.postVelocity
    rw [hq2, hspeed, forward_of_id]
    apply Vec3.ext <;>
      simp only [Main.newVelocity, Main.lift, gravity, Vec3.addScaledVector, Vec3.lerp,
        Vec3.multiplyScalar] <;> ring
  have hupos : (Main.unclampedPosition sn cs pi inpNone (1/60) s).y =
      s.position.y + ((22/25) * s.velocity.y - 1991/75000) * (1/60) := by
    unfold Main.unclampedPosition
    rw [hvel]
    simp [Vec3.addScaledVector]
  have hno : ¬ ((Main.unclampedPosition sn cs pi inpNone (1/60) s).y < 5) := by
    rw [hupos]; exact h5
  rw [main_update_of_not_clamped sn cs pi inpNone (1/60) s hno]
  refine ⟨hq2, hthr, ?_, hupos⟩
  rw [show (⟨Main.unclampedPosition sn cs pi inpNone (1/60) s,
      s.quaternion.multiply (deltaQuat sn cs pi inpNone (1/60)),
      Main.postVelocity sn cs pi inpNone (1/60) s,
      throttleStep inpNone (1/60) s.throttle,
      s.camPos.lerp
        ((Main.unclampedPosition sn cs pi inpNone (1/60) s).add
          ((Vec3.mk 0 20 60).applyQuaternion
            (s.quaternion.multiply (deltaQuat sn cs pi inpNone (1/60))))) (1/10),
      Main.unclampedPosition sn cs pi inpNone (1/60) s,
      s.time + 1/60⟩ : SimState K).velocity =
      Main.postVelocity sn cs pi inpNone (1/60) s from rfl, hvel]

theorem scenB_simple_step (sn cs : K → K) (pi : K) (hs : sn 0 = 0) (hc : cs 0 = 1)
    (s : SimState K) (hq : s.quaternion = ⟨0, 0, 0, 1⟩) (ht : s.throttle = 0)
    (h2 : ¬ (s.position.y + ((9/10) * s.velocity.y + 57/20000) * (1/60) < 2)) :
    (Simple.update sn cs pi inpNone (1/60) s).quaternion = ⟨0, 0, 0, 1⟩ ∧
    (Simple.update sn cs pi inpNone (1/60) s).throttle = 0 ∧
    (Simple.update sn cs pi inpNone (1/60) s).velocity.y =
      (9/10) * s.velocity.y + 57/20000 ∧
    (Simple.update sn cs pi inpNone (1/60) s).position.y =
      s.position.y + ((9/10) * s.velocity.y + 57/20000) * (1/60) := by
  have hq2 := quat_step_id sn cs pi ((1 : K)/60) s hs hc hq
  have hthr : throttleStep inpNone ((1 : K)/60) s.throttle = 0 := by
    rw [ht]; exact throttleStep_zero _
  have hspeed : speedOf (throttleStep inpNone ((1 : K)/60) s.throttle) = 20 := by
    rw [hthr]; unfold speedOf minSpeed maxSpeed; ring
  have hvel : Simple.postVelocity sn cs pi inpNone (1/60) s =
      ⟨(9/10) * s.velocity.x, (9/10) * s.velocity.y + 57/20000,
       (9/10) * s.velocity.z - 2⟩ := by
    unfold Simple.postVelocity
    rw [hq2, hspeed, forward_of_id]
    apply Vec3.ext <;>
      simp only [Simple.newVelocity, Simple.acceleration, Simple.lift, gravity,
        Vec3.addScaledVector, Vec3.lerp, Vec3.multiplyScalar, Vec3.add] <;> ring
  have hupos : (Simple.unclampedPosition sn cs pi inpNone (1/60) s).y =
      s.position.y + ((9/10) * s.velocity.y + 57/20000) * (1/60) := by
    unfold Simple.unclampedPosition
    rw [hvel]
    simp [Vec3.addScaledVector]
  have hno : ¬ ((Simple.unclampedPosition sn cs pi inpNone (1/60) s).y < 2) := by
    rw [hupos]; exact h2
  rw [simple_update_of_not_clamped sn cs pi inpNone (1/60) s hno]
  refine ⟨hq2, hthr, ?_, hupos⟩
  rw [show (⟨Simple.unclampedPosition sn cs pi inpNone (1/60) s,
      s.quaternion.multiply (deltaQuat sn cs pi inpNone (1/60)),
      Simple.postVelocity sn cs pi inpNone (1/60) s,
      throttleStep inpNone (1/60) s.throttle,
      s.camPos.lerp
        ((Simple.unclampedPosition sn cs pi inpNone (1/60) s).add
          ((Vec3.mk 0 15 40).applyQuaternion
            (s.quaternion.multiply (deltaQuat sn cs pi inpNone (1/60))))) (1/10),
      Simple.unclampedPosition sn cs pi inpNone (1/60) s,
      s.time⟩ : SimState K).velocity =
      Simple.postVelocity sn cs pi inpNone (1/60) s from rfl, hvel]

theorem scenB_main_iter (sn cs : K → K) (pi : K) (hs : sn 0 = 0) (hc : cs 0 = 1) :
    ∀ (n : ℕ) (s : SimState K), s.quaternion = ⟨0, 0, 0, 1⟩ → s.throttle = 0 →
      -(1/4) ≤ s.velocity.y → s.velocity.y ≤ 0 →
      (75/4 : K) + (n : K) * (1/240) ≤ s.position.y →
      (75/4 : K) ≤ ((Main.update sn cs pi inpNone (1/60))^[n] s).position.y := by
  intro n
  induction n with
  | zero =>
      intro s _ _ _ _ hp
      simpa using hp
  | succ n ih =>
      intro s hq ht hv1 hv2 hp
      have hcast : ((n + 1 : ℕ) : K) = (n : K) + 1 := by push_cast; ring
      rw [hcast] at hp
      have hnn : (0 : K) ≤ (n : K) := Nat.cast_nonneg n
      have hvp : -(1/4 : K) ≤ (22/25) * s.velocity.y - 1991/75000 := by linarith
      have hvp2 : (22/25) * s.velocity.y - 1991/75000 ≤ 0 := by linarith
      have h5 : ¬ (s.position.y + ((22/25) * s.velocity.y - 1991/75000) * (1/60) < 5) := by
        apply not_lt.mpr
        nlinarith
      have hstep := scenB_main_step sn cs pi hs hc s hq ht h5
      rw [Function.iterate_succ_apply]
      refine ih (Main.update sn cs pi inpNone (1/60) s) hstep.1 hstep.2.1 ?_ ?_ ?_
      · rw [hstep.2.2.1]; exact hvp
      · rw [hstep.2.2.1]; exact hvp2
      · rw [hstep.2.2.2]; nlinarith

theorem scenB_simple_iter (sn cs : K → K) (pi : K) (hs : sn 0 = 0) (hc : cs 0 = 1) :
    ∀ (n : ℕ) (s : SimState K), s.quaternion = ⟨0, 0, 0, 1⟩ → s.throttle = 0 →
      0 ≤ s.velocity.y → (20 : K) ≤ s.position.y →
      (20 : K) ≤ ((Simple.update sn cs pi inpNone (1/60))^[n] s).position.y := by
  intro n
  induction n with
  | zero =>
      intro s _ _ _ hp
      simpa using hp
  | succ n ih =>
      intro s hq ht hv hp
      have hvp : (0 : K) ≤ (9/10) * s.velocity.y + 57/20000 := by linarith
      have h2 : ¬ (s.position.y + ((9/10) * s.velocity.y + 57/20000) * (1/60) < 2) := by
        apply not_lt.mpr
        nlinarith
      have hstep := scenB_simple_step sn cs pi hs hc s hq ht h2
      rw [Function.iterate_succ_apply]
      refine ih (Simple.update sn cs pi inpNone (1/60) s) hstep.1 hstep.2.1 ?_ ?_
      · rw [hstep.2.2.1]; exact hvp
      · rw [hstep.2.2.2]; nlinarith

/-- Claim C4 (amended): starting level at height 20, at rest vertically, with
all inputs false and throttle 0 (speed = minSpeed = 20) and stepping at
dt = 1/60, the aircraft does NOT descend to the floor-clamp threshold within
5 simulated seconds: in the richer variant the height after any n ≤ 300 steps
stays at least 18.75 (the per-step sink rate is bounded by 1/4 m/s), and in
the simpler variant the height never drops below 20 at all (its lift exceeds
gravity at throttle 0), so it never holds at the threshold. -/
theorem claim4 (sn cs : K → K) (pi : K) (s t : SimState K) (hs : sn 0 = 0) (hc : cs 0 = 1)
    (hqM : s.quaternion = ⟨0, 0, 0, 1⟩) (hvM : s.velocity.y = 0)
    (hpM : s.position.y = 20) (htM : s.throttle = 0)
    (hqS : t.quaternion = ⟨0, 0, 0, 1⟩) (hvS : t.velocity.y = 0)
    (hpS : t.position.y = 20) (htS : t.throttle = 0) :
    (∀ n : ℕ, n ≤ 300 →
      (75/4 : K) ≤ ((Main.update sn cs pi inpNone (1/60))^[n] s).position.y) ∧
    (∀ n : ℕ, (20 : K) ≤ ((Simple.update sn cs pi inpNone (1/60))^[n] t).position.y) := by
  constructor
  · intro n hn
    apply scenB_main_iter sn cs pi hs hc n s hqM htM (by rw [hvM]; norm_num)
      (by rw [hvM])
    rw [hpM]
    have hcast : (n : K) ≤ 300 := by exact_mod_cast hn
    have hnn : (0 : K) ≤ (n : K) := Nat.cast_nonneg n
    nlinarith
  · intro n
    exact scenB_simple_iter sn cs pi hs hc n t hqS htS (by rw [hvS]) (by rw [hpS])

/-- Claim C4 as stated is false: from the Scenario B start state (level at
height 20, at rest, throttle 0, all inputs false, dt = 1/60), after 300 steps
(5 simulated seconds) the height is still strictly above the floor-clamp
threshold in both variants, so it has not decreased to the threshold and does
not hold there. -/
theorem claim4_cex :
    (5 : ℚ) < ((Main.update sin0 cos1 0 inpNone (1/60))^[300] stateB).position.y ∧
    (2 : ℚ) < ((Simple.update sin0 cos1 0 inpNone (1/60))^[300] stateB).position.y := by
  constructor
  · have h := scenB_main_iter sin0 cos1 0 rfl rfl 300 stateB rfl rfl
      (by norm_num [stateB]) (by norm_num [stateB]) (by norm_num [stateB])
    linarith
  · have h := scenB_simple_iter sin0 cos1 0 rfl rfl 300 stateB rfl rfl
      (by norm_num [stateB]) (by norm_num [stateB])
    linarith

theorem claim4_witness :
    (sin0 0 = 0 ∧ cos1 0 = 1 ∧ stateB.quaternion = ⟨0, 0, 0, 1⟩ ∧
     stateB.velocity.y = 0 ∧ stateB.position.y = 20 ∧ stateB.throttle = 0) ∧
    ((∀ n : ℕ, n ≤ 300 →
       (75/4 : ℚ) ≤ ((Main.update sin0 cos1 0 inpNone (1/60))^[n] stateB).position.y) ∧
     (∀ n : ℕ,
       (20 : ℚ) ≤ ((Simple.update sin0 cos1 0 inpNone (1/60))^[n] stateB).position.y)) :=
  ⟨⟨rfl, rfl, rfl, rfl, rfl, rfl⟩,
    claim4 sin0 cos1 0 stateB stateB rfl rfl rfl rfl rfl rfl rfl rfl rfl rfl⟩
